import Mathlib

/-!
Shallow embedding of the SSRF URL-safety validator and its fetch gate from
`src/03-mcp/main.py` (`is_safe_url`, `get_page_content`), together with the
pieces of the Python standard library the code leans on:

* `urllib.parse.urlparse(url).hostname` (CPython `urlsplit` + the `hostname`
  property of the netloc mixin), modelled by `extractRawHost` /
  `extractHostname`;
* `ipaddress.ip_address` string parsing (IPv4 dotted quad with the
  no-leading-zero rule, the full IPv6 grouping algorithm with `::`
  compression and trailing embedded IPv4), modelled by `parseIPv4`,
  `parseIPv6` and `ip_address`;
* the `ipaddress` classification properties (`is_loopback`, `is_private`,
  `is_link_local`, `is_multicast`, `is_unspecified`, `is_reserved`,
  `is_site_local`), modelled by the predicates of the same names over the
  explicit network tables of CPython 3.11's `ipaddress` module.

DNS resolution (`socket.getaddrinfo` followed by the set comprehension over
`info[4][0]`) is an external effect; it is passed in as a function
`resolve : String → Option (List String)` where `none` stands for a raised
`socket.gaierror` and `some ips` for the deduplicated list of address
strings.  The outbound HTTP request of `get_page_content` is likewise passed
in as `fetch : String → Nat → FetchOutcome`.

Zone-ids of scoped IPv6 literals (`%…` both in bracketed hosts and in
`ipaddress` strings) are not modelled; no claim exercises them.
-/

namespace SSRF

/-! ## Generic character-list helpers (Python `str.split`, `str.rpartition`,
`str.partition`, `str.replace`, `str.lower`) -/

/-- Python `s.split(sep)` on character lists: `splitChar sep [] = [[]]`,
matching `"".split(sep) == ['']`. -/
def splitChar (sep : Char) : List Char → List (List Char)
  | [] => [[]]
  | c :: rest =>
    let r := splitChar sep rest
    if c = sep then [] :: r
    else
      match r with
      | [] => [[c]]
      | p :: ps => (c :: p) :: ps

/-- First occurrence split, Python `s.partition(sep)` when the separator is
found: `some (before, after)`, and `none` when `sep` does not occur. -/
def splitOnFirst (sep : Char) : List Char → Option (List Char × List Char)
  | [] => none
  | c :: rest =>
    if c = sep then some ([], rest)
    else (splitOnFirst sep rest).map (fun p => (c :: p.1, p.2))

/-- Python `s.rpartition(sep)[2]`: the segment after the last occurrence of
`sep` (the whole string when `sep` does not occur). -/
def afterLastChar (sep : Char) (l : List Char) : List Char :=
  (splitChar sep l).getLastD l

/-- Python ASCII lower-casing of one character (`str.lower` restricted to
ASCII, which is all the URL code-paths under test use). -/
def lowerChar (c : Char) : Char :=
  if 65 ≤ c.toNat ∧ c.toNat ≤ 90 then Char.ofNat (c.toNat + 32) else c

/-- Python `str.lower` on a string (ASCII range). -/
def lowerStr (s : String) : String :=
  String.mk (s.toList.map lowerChar)

/-- An ASCII upper-case letter. -/
def isAsciiUpper (c : Char) : Bool :=
  decide (65 ≤ c.toNat ∧ c.toNat ≤ 90)

/-! ## `urllib.parse`: hostname extraction

`urlsplit` first removes tab, CR and LF, strips a valid `scheme:` prefix,
and reads the netloc after `//` up to the first of `/`, `?`, `#`.  A
bracket appearing without its partner raises `ValueError("Invalid IPv6
URL")`.  The `hostname` property then takes the part after the last `@`,
reads a bracketed host up to `]` or an unbracketed one up to `:`, returns
`None` for an empty host and otherwise the host lower-cased. -/

/-- Characters CPython's `urlsplit` deletes from the URL before parsing
(`_UNSAFE_URL_BYTES_TO_REMOVE = ["\t", "\r", "\n"]`). -/
def removeUnsafeBytes (l : List Char) : List Char :=
  l.filter (fun c => ¬ (c = Char.ofNat 9 ∨ c = Char.ofNat 13 ∨ c = Char.ofNat 10))

/-- CPython `scheme_chars`: ASCII letters, digits, `+`, `-`, `.`. -/
def scheme_char (c : Char) : Bool :=
  c.isAlpha || c.isDigit || c = '+' || c = '-' || c = '.'

/-- Strip a syntactically valid `scheme:` prefix, as `urlsplit` does: a
colon must occur at index > 0, the first character must be an ASCII letter
and every character before the colon a scheme character; otherwise the URL
is left unchanged. -/
def stripScheme (l : List Char) : List Char :=
  match splitOnFirst ':' l with
  | none => l
  | some (pre, post) =>
    match pre with
    | [] => l
    | c0 :: _ => if c0.isAlpha ∧ pre.all scheme_char then post else l

/-- Not one of the three netloc delimiters `/`, `?`, `#`. -/
def notNetlocDelim (c : Char) : Bool :=
  ¬ (c = '/' ∨ c = '?' ∨ c = '#')

/-- The raw (not yet lower-cased) hostname CPython's
`urlparse(url).hostname` extracts: `Except.error` models the
`ValueError("Invalid IPv6 URL")` raised for unbalanced brackets,
`Except.ok none` models a `None` hostname. -/
def extractRawHost (url : String) : Except String (Option String) :=
  let l := removeUnsafeBytes url.toList
  let rest := stripScheme l
  match rest with
  | '/' :: '/' :: afterSlashes =>
    let netloc := afterSlashes.takeWhile notNetlocDelim
    if (netloc.contains '[' && ! netloc.contains ']')
        || (netloc.contains ']' && ! netloc.contains '[') then
      Except.error "Invalid IPv6 URL"
    else
      let hostinfo := afterLastChar '@' netloc
      let rawHost :=
        match splitOnFirst '[' hostinfo with
        | some (_, bracketed) =>
          match splitOnFirst ']' bracketed with
          | some (host, _) => host
          | none => bracketed
        | none =>
          match splitOnFirst ':' hostinfo with
          | some (host, _) => host
          | none => hostinfo
      if rawHost = [] then Except.ok none else Except.ok (some (String.mk rawHost))
  | _ => Except.ok none

/-- `urlparse(url).hostname`: the raw host lower-cased (`None` stays
`None`). -/
def extractHostname (url : String) : Except String (Option String) :=
  match extractRawHost url with
  | Except.error e => Except.error e
  | Except.ok none => Except.ok none
  | Except.ok (some raw) => Except.ok (some (lowerStr raw))

/-! ## `ipaddress` string parsing

`ipaddress.ip_address` tries `IPv4Address(s)` first and falls back to
`IPv6Address(s)`; both raise (modelled as `none`) on malformed input. -/

/-- An ASCII hexadecimal digit (the characters of CPython's
`_HEX_DIGITS`). -/
def hex_digit (c : Char) : Bool :=
  c.isDigit || ('a' ≤ c ∧ c ≤ 'f') || ('A' ≤ c ∧ c ≤ 'F')

/-- Numeric value of one hexadecimal digit. -/
def hexDigitVal (c : Char) : Nat :=
  if c.isDigit then c.toNat - 48
  else if 'a' ≤ c ∧ c ≤ 'f' then c.toNat - 87
  else c.toNat - 55

/-- Decimal value of a digit list (`int(s, 10)` on valid digits). -/
def decValue (l : List Char) : Nat :=
  l.foldl (fun a c => a * 10 + (c.toNat - 48)) 0

/-- Hexadecimal value of a hex-digit list (`int(s, 16)` on valid digits). -/
def hexValue (l : List Char) : Nat :=
  l.foldl (fun a c => a * 16 + hexDigitVal c) 0

/-- CPython `IPv4Address._parse_octet`: ASCII decimal digits only, at most
three of them, no leading zero, value at most 255. -/
def parseOctet (l : List Char) : Option Nat :=
  if l = [] then none
  else if ¬ l.all Char.isDigit then none
  else if 3 < l.length then none
  else if 255 < decValue l then none
  else
    match l with
    | c :: _ :: _ => if c = '0' then none else some (decValue l)
    | _ => some (decValue l)

/-- CPython `IPv4Address._ip_int_from_string`: exactly four octets joined
by dots, big-endian. -/
def parseIPv4 (l : List Char) : Option Nat :=
  match splitChar '.' l with
  | [a, b, c, d] =>
    match parseOctet a, parseOctet b, parseOctet c, parseOctet d with
    | some x, some y, some z, some w => some (((x * 256 + y) * 256 + z) * 256 + w)
    | _, _, _, _ => none
  | _ => none

/-- CPython `IPv6Address._parse_hextet`: one to four hex digits. -/
def parseHextet (l : List Char) : Option Nat :=
  if l = [] then none
  else if ¬ l.all hex_digit then none
  else if 4 < l.length then none
  else some (hexValue l)

/-- One colon-separated part of an IPv6 literal after classification:
empty (a candidate for the `::` gap), a valid hextet value, or invalid. -/
inductive V6Part
  | emp
  | val (n : Nat)
  | bad
deriving DecidableEq

/-- Classify one part as `V6Part`. -/
def classifyPart (p : List Char) : V6Part :=
  if p = [] then V6Part.emp
  else
    match parseHextet p with
    | some n => V6Part.val n
    | none => V6Part.bad

/-- Is the part the empty string? -/
def isEmptyPart : V6Part → Bool
  | V6Part.emp => true
  | _ => false

/-- Fold a run of parts into its value, 16 bits per part; any empty or
invalid part is CPython's `_parse_hextet` raising. -/
def hextetsVal (ps : List V6Part) : Option Nat :=
  ps.foldl
    (fun acc p =>
      match acc, p with
      | some a, V6Part.val n => some (a * 65536 + n)
      | _, _ => none)
    (some 0)

/-- The core of CPython `IPv6Address._ip_int_from_string` once the parts
are split on `:` (and a trailing embedded IPv4 is already expanded): find
the unique interior empty part (the `::` gap), check the leading/trailing
empty-part bookkeeping exactly as the source does, and assemble the 128-bit
value. -/
def assembleV6 (ps : List V6Part) : Option Nat :=
  if 9 < ps.length then none
  else
    let n := ps.length
    match (List.range n).filter
        (fun i => decide (0 < i) && decide (i < n - 1) && isEmptyPart (ps.getD i V6Part.bad)) with
    | [] =>
      if n ≠ 8 then none
      else if isEmptyPart (ps.headD V6Part.bad) then none
      else if isEmptyPart (ps.getLastD V6Part.bad) then none
      else hextetsVal ps
    | [i] =>
      let hi0 := ps.take i
      let lo0 := ps.drop (i + 1)
      let hi? : Option (List V6Part) :=
        if isEmptyPart (ps.headD V6Part.bad) then
          (if i - 1 = 0 then some [] else none)
        else some hi0
      let lo? : Option (List V6Part) :=
        if isEmptyPart (ps.getLastD V6Part.bad) then
          (if n - i - 2 = 0 then some [] else none)
        else some lo0
      match hi?, lo? with
      | some hi, some lo =>
        if 8 ≤ hi.length + lo.length then none
        else
          match hextetsVal hi, hextetsVal lo with
          | some a, some b =>
            some (a * 65536 ^ (8 - hi.length) + b)
          | _, _ => none
      | _, _ => none
    | _ => none

/-- CPython `IPv6Address._ip_int_from_string`: split on `:`, require at
least three parts, expand a trailing embedded IPv4 into two hextets, then
assemble. -/
def parseIPv6 (l : List Char) : Option Nat :=
  let parts0 := splitChar ':' l
  if parts0.length < 3 then none
  else
    let last := parts0.getLastD []
    if last.contains '.' then
      match parseIPv4 last with
      | some v =>
        assembleV6 (parts0.dropLast.map classifyPart
          ++ [V6Part.val (v / 65536), V6Part.val (v % 65536)])
      | none => none
    else assembleV6 (parts0.map classifyPart)

/-- A parsed IP address: the constructor records the family, the payload is
the numeric address value (below `2^32` resp. `2^128`). -/
inductive IPAddr
  | v4 (n : Nat)
  | v6 (n : Nat)
deriving DecidableEq

/-- CPython `ipaddress.ip_address`: IPv4 first, then IPv6, `none` for a
`ValueError`. -/
def ip_address (s : String) : Option IPAddr :=
  match parseIPv4 s.toList with
  | some v => some (IPAddr.v4 v)
  | none =>
    match parseIPv6 s.toList with
    | some v => some (IPAddr.v6 v)
    | none => none

/-! ## `ipaddress` classification

Network membership and the address-classification properties, following the
explicit network tables of CPython 3.11's `ipaddress` module
(`_IPv4Constants` / `_IPv6Constants`). -/

/-- Membership of `addr` in the network with base address `net` and the
given routing prefix length, for `w`-bit addresses: the top `p` bits
agree. -/
def inNet (w addr net p : Nat) : Bool :=
  addr / 2 ^ (w - p) = net / 2 ^ (w - p)

/-- IPv4 network membership (32-bit). -/
def inNet4 (addr net p : Nat) : Bool :=
  inNet 32 addr net p

/-- IPv6 network membership (128-bit). -/
def inNet6 (addr net p : Nat) : Bool :=
  inNet 128 addr net p

/-- CPython `_IPv4Constants._private_networks`. -/
def ipv4_private_nets : List (Nat × Nat) :=
  [ (0x00000000, 8)    -- 0.0.0.0/8
  , (0x0A000000, 8)    -- 10.0.0.0/8
  , (0x7F000000, 8)    -- 127.0.0.0/8
  , (0xA9FE0000, 16)   -- 169.254.0.0/16
  , (0xAC100000, 12)   -- 172.16.0.0/12
  , (0xC0000000, 29)   -- 192.0.0.0/29
  , (0xC00000AA, 31)   -- 192.0.0.170/31
  , (0xC0000200, 24)   -- 192.0.2.0/24
  , (0xC0A80000, 16)   -- 192.168.0.0/16
  , (0xC6120000, 15)   -- 198.18.0.0/15
  , (0xC6336400, 24)   -- 198.51.100.0/24
  , (0xCB007100, 24)   -- 203.0.113.0/24
  , (0xF0000000, 4)    -- 240.0.0.0/4
  , (0xFFFFFFFF, 32) ] -- 255.255.255.255/32

/-- CPython `_IPv6Constants._private_networks`. -/
def ipv6_private_nets : List (Nat × Nat) :=
  [ (1, 128)                            -- ::1/128
  , (0, 128)                            -- ::/128
  , (0xFFFF * 2 ^ 32, 96)               -- ::ffff:0:0/96
  , (0x0100 * 2 ^ 112, 64)              -- 100::/64
  , (0x2001 * 2 ^ 112, 23)              -- 2001::/23
  , (0x2001 * 2 ^ 112 + 0x2 * 2 ^ 96, 48) -- 2001:2::/48
  , (0x2001 * 2 ^ 112 + 0xDB8 * 2 ^ 96, 32) -- 2001:db8::/32
  , (0x2001 * 2 ^ 112 + 0x10 * 2 ^ 96, 28)  -- 2001:10::/28
  , (0xFC00 * 2 ^ 112, 7)               -- fc00::/7
  , (0xFE80 * 2 ^ 112, 10) ]            -- fe80::/10

/-- CPython `_IPv6Constants._reserved_networks`. -/
def ipv6_reserved_nets : List (Nat × Nat) :=
  [ (0, 8)                  -- ::/8
  , (0x0100 * 2 ^ 112, 8)   -- 100::/8
  , (0x0200 * 2 ^ 112, 7)   -- 200::/7
  , (0x0400 * 2 ^ 112, 6)   -- 400::/6
  , (0x0800 * 2 ^ 112, 5)   -- 800::/5
  , (0x1000 * 2 ^ 112, 4)   -- 1000::/4
  , (0x4000 * 2 ^ 112, 3)   -- 4000::/3
  , (0x6000 * 2 ^ 112, 3)   -- 6000::/3
  , (0x8000 * 2 ^ 112, 3)   -- 8000::/3
  , (0xA000 * 2 ^ 112, 3)   -- a000::/3
  , (0xC000 * 2 ^ 112, 3)   -- c000::/3
  , (0xE000 * 2 ^ 112, 4)   -- e000::/4
  , (0xF000 * 2 ^ 112, 5)   -- f000::/5
  , (0xF800 * 2 ^ 112, 6)   -- f800::/6
  , (0xFE00 * 2 ^ 112, 9) ] -- fe00::/9

/-- `ip.is_loopback`: 127.0.0.0/8 for IPv4, `::1` for IPv6. -/
def is_loopback : IPAddr → Bool
  | IPAddr.v4 n => inNet4 n 0x7F000000 8
  | IPAddr.v6 n => n = 1

/-- `ip.is_private`: membership in the family's private-network table. -/
def is_private : IPAddr → Bool
  | IPAddr.v4 n => ipv4_private_nets.any (fun net => inNet4 n net.1 net.2)
  | IPAddr.v6 n => ipv6_private_nets.any (fun net => inNet6 n net.1 net.2)

/-- `ip.is_link_local`: 169.254.0.0/16 for IPv4, fe80::/10 for IPv6. -/
def is_link_local : IPAddr → Bool
  | IPAddr.v4 n => inNet4 n 0xA9FE0000 16
  | IPAddr.v6 n => inNet6 n (0xFE80 * 2 ^ 112) 10

/-- `ip.is_multicast`: 224.0.0.0/4 for IPv4, ff00::/8 for IPv6. -/
def is_multicast : IPAddr → Bool
  | IPAddr.v4 n => inNet4 n 0xE0000000 4
  | IPAddr.v6 n => inNet6 n (0xFF00 * 2 ^ 112) 8

/-- `ip.is_unspecified`: the all-zeros address of either family. -/
def is_unspecified : IPAddr → Bool
  | IPAddr.v4 n => n = 0
  | IPAddr.v6 n => n = 0

/-- `ip.is_reserved`: 240.0.0.0/4 for IPv4, the IANA reserved table for
IPv6. -/
def is_reserved : IPAddr → Bool
  | IPAddr.v4 n => inNet4 n 0xF0000000 4
  | IPAddr.v6 n => ipv6_reserved_nets.any (fun net => inNet6 n net.1 net.2)

/-- `ip.is_site_local` (an IPv6-only property in CPython; the source only
reads it under `isinstance(ip, ipaddress.IPv6Address)`): fec0::/10. -/
def is_site_local : IPAddr → Bool
  | IPAddr.v4 _ => false
  | IPAddr.v6 n => inNet6 n (0xFEC0 * 2 ^ 112) 10

/-! ## `is_safe_url` (src/03-mcp/main.py, lines 72–191)

The verdict is the source's `tuple[bool, str]`, modelled as `Bool × String`.
The per-address loop body is `classify_addr`; `check_ip` adds the
`ipaddress.ip_address` parse with its `ValueError` handler; `checkIPs` is
the loop over the resolved address strings, returning on the first
rejection and `(true, "")` after a full pass. -/

/-- The chain of rejection tests the loop body applies to one parsed
address, in source order; `none` means the address passed every check. -/
def classify_addr (ip_str : String) (ip : IPAddr) : Option String :=
  if is_loopback ip then
    some ("Error: Loopback address (" ++ ip_str ++ ") is not permitted")
  else if is_private ip then
    some ("Error: Private address (" ++ ip_str ++ ") is not permitted")
  else if is_link_local ip then
    some ("Error: Link-local address (" ++ ip_str ++ ") is not permitted")
  else if is_multicast ip then
    some ("Error: Multicast address (" ++ ip_str ++ ") is not permitted")
  else if is_unspecified ip then
    some ("Error: Unspecified address (" ++ ip_str ++ ") is not permitted")
  else if is_reserved ip then
    some ("Error: Reserved address (" ++ ip_str ++ ") is not permitted")
  else if ip_str = "169.254.169.254" then
    some "Error: Access to cloud metadata endpoint (169.254.169.254) is not permitted"
  else
    match ip with
    | IPAddr.v4 n =>
      if inNet4 n 0x0A000000 8 then
        some ("Error: Private network address (" ++ ip_str ++ ") is not permitted")
      else if inNet4 n 0xAC100000 12 then
        some ("Error: Private network address (" ++ ip_str ++ ") is not permitted")
      else if inNet4 n 0xC0A80000 16 then
        some ("Error: Private network address (" ++ ip_str ++ ") is not permitted")
      else if inNet4 n 0x7F000000 8 then
        some ("Error: Localhost address (" ++ ip_str ++ ") is not permitted")
      else if inNet4 n 0xA9FE0000 16 then
        some ("Error: Link-local address (" ++ ip_str ++ ") is not permitted")
      else none
    | IPAddr.v6 n =>
      if is_site_local (IPAddr.v6 n) then
        some ("Error: Site-local IPv6 address (" ++ ip_str ++ ") is not permitted")
      else none

/-- One iteration of the source's `for ip_str in ip_addresses` loop:
parse, with `except ValueError` giving the invalid-format reason, then the
classification chain. -/
def check_ip (ip_str : String) : Option String :=
  match ip_address ip_str with
  | none => some ("Error: Invalid IP address format: " ++ ip_str)
  | some ip => classify_addr ip_str ip

/-- The whole loop: return `(False, reason)` at the first rejected
address, `(True, "")` when every address passes. -/
def checkIPs : List String → Bool × String
  | [] => (true, "")
  | s :: rest =>
    match check_ip s with
    | some msg => (false, msg)
    | none => checkIPs rest

/-- The localhost aliases blocked before resolution
(`localhost_names`). -/
def localhost_names : List String :=
  ["localhost", "localhost.localdomain"]

/-- `is_safe_url` after a non-empty hostname has been extracted: allowlist
bypass, localhost-alias rejection, resolution (where `none` is a raised
`socket.gaierror`), then the per-address loop. -/
def is_safe_url_core (allowed : List String)
    (resolve : String → Option (List String)) (hostname : String) : Bool × String :=
  if allowed ≠ [] ∧ hostname ∈ allowed then (true, "")
  else if lowerStr hostname ∈ localhost_names then
    (false, "Error: Access to localhost is not permitted")
  else
    match resolve hostname with
    | none => (false, "Error: Unable to resolve hostname '" ++ hostname ++ "'")
    | some ips => checkIPs ips

/-- The body of `is_safe_url`'s outer `try`: an `Except.error` is an
exception reaching the catch-all handler (in this model, only `urlparse`
raises — resolver failure is already handled by the inner
`except socket.gaierror`). -/
def is_safe_url_body (allowed : List String)
    (resolve : String → Option (List String)) (url : String) :
    Except String (Bool × String) :=
  match extractHostname url with
  | Except.error e => Except.error e
  | Except.ok none => Except.ok (false, "Error: Unable to extract hostname from URL")
  | Except.ok (some hostname) => Except.ok (is_safe_url_core allowed resolve hostname)

/-- `is_safe_url` itself: the catch-all `except Exception` wraps any
escaping exception into the `URL validation failed` verdict, so a verdict
is always returned. -/
def is_safe_url (allowed : List String)
    (resolve : String → Option (List String)) (url : String) : Bool × String :=
  match is_safe_url_body allowed resolve url with
  | Except.ok v => v
  | Except.error e => (false, "Error: URL validation failed: " ++ e)

/-! ## `get_page_content` (src/03-mcp/main.py, lines 209–241) -/

/-- Outcome of the one outbound request `requests.get(jina_url,
timeout=timeout)` followed by `raise_for_status()`: a successful body, a
raised `Timeout`, or any other raised `RequestException` (HTTP error
statuses included) with its message. -/
inductive FetchOutcome
  | success (body : String)
  | timedOut
  | failure (msg : String)
deriving DecidableEq

/-- The scheme gate at the top of `get_page_content`:
`url.startswith(("http://", "https://"))`.  Stated over the character
lists so that it computes by structural recursion. -/
def schemeOk (url : String) : Bool :=
  List.isPrefixOf "http://".toList url.toList
    || List.isPrefixOf "https://".toList url.toList

/-- `get_page_content`: scheme gate, validator gate, then the fetch of the
Jina Reader URL with the caller's timeout and the two exception-to-string
handlers. -/
def get_page_content (allowed : List String)
    (resolve : String → Option (List String))
    (fetch : String → Nat → FetchOutcome) (url : String) (timeout : Nat) : String :=
  if ¬ schemeOk url then
    "Error: Invalid URL format. Must start with http:// or https://"
  else
    let res := is_safe_url allowed resolve url
    if res.1 = false then res.2
    else
      match fetch ("https://r.jina.ai/" ++ url) timeout with
      | FetchOutcome.success body => body
      | FetchOutcome.timedOut =>
        "Error: Request timed out after " ++ toString timeout ++ " seconds"
      | FetchOutcome.failure e => "Error fetching content: " ++ e

/-! ## Supporting lemmas -/

/-- The disjunction of all address categories the per-address loop rejects:
the six generic classification flags, the five explicit IPv4 ranges and the
IPv6 site-local range (`is_site_local` is `false` on IPv4 by definition, so
it can be taken over both families). -/
def unsafe_ip (ip : IPAddr) : Bool :=
  is_loopback ip || is_private ip || is_link_local ip || is_multicast ip
    || is_unspecified ip || is_reserved ip || is_site_local ip
    || (match ip with
        | IPAddr.v4 n =>
          inNet4 n 0x0A000000 8 || inNet4 n 0xAC100000 12 || inNet4 n 0xC0A80000 16
            || inNet4 n 0x7F000000 8 || inNet4 n 0xA9FE0000 16
        | IPAddr.v6 _ => false)

theorem char_toNat_ofNat {n : Nat} (h : n.isValidChar) : (Char.ofNat n).toNat = n := by
  rw [Char.ofNat, dif_pos h]
  rfl

theorem lowerChar_toNat (c : Char) :
    (lowerChar c).toNat =
      if 65 ≤ c.toNat ∧ c.toNat ≤ 90 then c.toNat + 32 else c.toNat := by
  unfold lowerChar
  by_cases h : 65 ≤ c.toNat ∧ c.toNat ≤ 90
  · rw [if_pos h, if_pos h]
    exact char_toNat_ofNat (Or.inl (by omega))
  · rw [if_neg h, if_neg h]

theorem lowerChar_fix {c : Char} (h : ¬ (65 ≤ c.toNat ∧ c.toNat ≤ 90)) :
    lowerChar c = c := by
  unfold lowerChar
  exact if_neg h

theorem lowerChar_idem (c : Char) : lowerChar (lowerChar c) = lowerChar c := by
  by_cases h : 65 ≤ c.toNat ∧ c.toNat ≤ 90
  · apply lowerChar_fix
    rw [lowerChar_toNat, if_pos h]
    omega
  · rw [lowerChar_fix h]
    exact lowerChar_fix h

theorem isAsciiUpper_lowerChar (c : Char) : isAsciiUpper (lowerChar c) = false := by
  unfold isAsciiUpper
  rw [lowerChar_toNat]
  by_cases h : 65 ≤ c.toNat ∧ c.toNat ≤ 90
  · rw [if_pos h]
    simp only [decide_eq_false_iff_not]
    omega
  · rw [if_neg h]
    simp only [decide_eq_false_iff_not]
    exact h

theorem map_lowerChar_idem (l : List Char) :
    (l.map lowerChar).map lowerChar = l.map lowerChar := by
  induction l with
  | nil => rfl
  | cons c rest ih => simp [lowerChar_idem, ih]

theorem lowerStr_idem (s : String) : lowerStr (lowerStr s) = lowerStr s := by
  unfold lowerStr
  show String.mk ((s.toList.map lowerChar).map lowerChar) = _
  rw [map_lowerChar_idem]

theorem map_eq_self_forall {l : List Char} {f : Char → Char} (h : l.map f = l) :
    ∀ c ∈ l, f c = c := by
  induction l with
  | nil => intro c hc; cases hc
  | cons a rest ih =>
    intro c hc
    rw [List.map_cons] at h
    injection h with h1 h2
    cases hc with
    | head => exact h1
    | tail _ hmem => exact ih h2 c hmem

/-- A string fixed by `lowerStr` contains no ASCII upper-case letter. -/
theorem no_upper_of_lowerStr_fix {s : String} (h : lowerStr s = s) :
    s.toList.any isAsciiUpper = false := by
  have hmap : s.toList.map lowerChar = s.toList := congrArg String.toList h
  rw [List.any_eq_false]
  intro c hc
  have hfix := map_eq_self_forall hmap c hc
  have := isAsciiUpper_lowerChar c
  rw [hfix] at this
  simp [this]

/-- Reduce `is_safe_url` to its post-extraction core once the extracted
hostname is known. -/
theorem is_safe_url_eq_core {url h : String} (allowed : List String)
    (resolve : String → Option (List String))
    (hx : extractHostname url = Except.ok (some h)) :
    is_safe_url allowed resolve url = is_safe_url_core allowed resolve h := by
  unfold is_safe_url is_safe_url_body
  rw [hx]

/-- The allowlist bypass at the core level. -/
theorem core_allowed {h : String} {allowed : List String}
    (resolve : String → Option (List String))
    (hne : allowed ≠ []) (hmem : h ∈ allowed) :
    is_safe_url_core allowed resolve h = (true, "") := by
  unfold is_safe_url_core
  rw [if_pos ⟨hne, hmem⟩]

/-- An IPv4 address that passed the whole classification chain is in none
of the rejected categories. -/
theorem classify_addr_none_v4 {s : String} {n : Nat}
    (h : classify_addr s (IPAddr.v4 n) = none) : unsafe_ip (IPAddr.v4 n) = false := by
  delta classify_addr at h
  by_cases h1 : is_loopback (IPAddr.v4 n) = true
  · rw [if_pos h1] at h; exact Option.noConfusion h
  rw [if_neg h1] at h
  by_cases h2 : is_private (IPAddr.v4 n) = true
  · rw [if_pos h2] at h; exact Option.noConfusion h
  rw [if_neg h2] at h
  by_cases h3 : is_link_local (IPAddr.v4 n) = true
  · rw [if_pos h3] at h; exact Option.noConfusion h
  rw [if_neg h3] at h
  by_cases h4 : is_multicast (IPAddr.v4 n) = true
  · rw [if_pos h4] at h; exact Option.noConfusion h
  rw [if_neg h4] at h
  by_cases h5 : is_unspecified (IPAddr.v4 n) = true
  · rw [if_pos h5] at h; exact Option.noConfusion h
  rw [if_neg h5] at h
  by_cases h6 : is_reserved (IPAddr.v4 n) = true
  · rw [if_pos h6] at h; exact Option.noConfusion h
  rw [if_neg h6] at h
  by_cases h7 : s = "169.254.169.254"
  · rw [if_pos h7] at h; exact Option.noConfusion h
  rw [if_neg h7] at h
  dsimp only at h
  by_cases h8 : inNet4 n 0x0A000000 8 = true
  · rw [if_pos h8] at h; exact Option.noConfusion h
  rw [if_neg h8] at h
  by_cases h9 : inNet4 n 0xAC100000 12 = true
  · rw [if_pos h9] at h; exact Option.noConfusion h
  rw [if_neg h9] at h
  by_cases h10 : inNet4 n 0xC0A80000 16 = true
  · rw [if_pos h10] at h; exact Option.noConfusion h
  rw [if_neg h10] at h
  by_cases h11 : inNet4 n 0x7F000000 8 = true
  · rw [if_pos h11] at h; exact Option.noConfusion h
  rw [if_neg h11] at h
  by_cases h12 : inNet4 n 0xA9FE0000 16 = true
  · rw [if_pos h12] at h; exact Option.noConfusion h
  rw [Bool.not_eq_true] at h1 h2 h3 h4 h5 h6 h8 h9 h10 h11 h12
  unfold unsafe_ip
  rw [h1, h2, h3, h4, h5, h6]
  dsimp only [is_site_local]
  rw [h8, h9, h10, h11, h12]
  rfl

/-- An IPv6 address that passed the whole classification chain is in none
of the rejected categories. -/
theorem classify_addr_none_v6 {s : String} {n : Nat}
    (h : classify_addr s (IPAddr.v6 n) = none) : unsafe_ip (IPAddr.v6 n) = false := by
  delta classify_addr at h
  by_cases h1 : is_loopback (IPAddr.v6 n) = true
  · rw [if_pos h1] at h; exact Option.noConfusion h
  rw [if_neg h1] at h
  by_cases h2 : is_private (IPAddr.v6 n) = true
  · rw [if_pos h2] at h; exact Option.noConfusion h
  rw [if_neg h2] at h
  by_cases h3 : is_link_local (IPAddr.v6 n) = true
  · rw [if_pos h3] at h; exact Option.noConfusion h
  rw [if_neg h3] at h
  by_cases h4 : is_multicast (IPAddr.v6 n) = true
  · rw [if_pos h4] at h; exact Option.noConfusion h
  rw [if_neg h4] at h
  by_cases h5 : is_unspecified (IPAddr.v6 n) = true
  · rw [if_pos h5] at h; exact Option.noConfusion h
  rw [if_neg h5] at h
  by_cases h6 : is_reserved (IPAddr.v6 n) = true
  · rw [if_pos h6] at h; exact Option.noConfusion h
  rw [if_neg h6] at h
  by_cases h7 : s = "169.254.169.254"
  · rw [if_pos h7] at h; exact Option.noConfusion h
  rw [if_neg h7] at h
  dsimp only at h
  by_cases h8 : is_site_local (IPAddr.v6 n) = true
  · rw [if_pos h8] at h; exact Option.noConfusion h
  rw [Bool.not_eq_true] at h1 h2 h3 h4 h5 h6 h8
  unfold unsafe_ip
  rw [h1, h2, h3, h4, h5, h6, h8]
  rfl

/-- An address that passed the whole classification chain is in none of the
rejected categories. -/
theorem classify_addr_none {s : String} {ip : IPAddr}
    (h : classify_addr s ip = none) : unsafe_ip ip = false := by
  cases ip with
  | v4 n => exact classify_addr_none_v4 h
  | v6 n => exact classify_addr_none_v6 h

/-- A string that parses to an address in a rejected category is stopped by
the loop body. -/
theorem check_ip_ne_none {s : String} {ip : IPAddr}
    (hp : ip_address s = some ip) (hu : unsafe_ip ip = true) :
    check_ip s ≠ none := by
  unfold check_ip
  rw [hp]
  intro h
  rw [classify_addr_none h] at hu
  exact Bool.noConfusion hu

/-- If any member of the address list is stopped by the loop body, the loop
returns an unsafe verdict. -/
theorem checkIPs_false_of_mem {ips : List String} {s : String}
    (hs : s ∈ ips) (h : check_ip s ≠ none) : (checkIPs ips).1 = false := by
  induction ips with
  | nil => cases hs
  | cons t rest ih =>
    unfold checkIPs
    cases ht : check_ip t with
    | some m => rfl
    | none =>
      cases hs with
      | head => exact absurd ht h
      | tail _ hmem => exact ih hmem

/-! ## Claim theorems -/

/-- Claim C1 (code bug): the claim says a hostname resolving to the literal
address 169.254.169.254 yields the metadata-specific reason string, and the
source's comment announces an explicit cloud-metadata check; but the
`ip.is_private` test (whose network table contains 169.254.0.0/16) returns
first, so on the failing input the validator returns the generic
private-address reason, and the loop body itself maps the metadata address
to that generic reason — the metadata branch is unreachable. -/
theorem c1_metadata_reason_dead :
    is_safe_url [] (fun _ => some ["169.254.169.254"]) "http://metadata.test/"
      = (false, "Error: Private address (169.254.169.254) is not permitted")
    ∧ check_ip "169.254.169.254"
      = some ("Error: Private address (169.254.169.254) is not permitted") := by
  constructor
  · rfl
  · rfl

/-- Claim C2: for a URL whose extracted hostname is not allow-listed and
not a localhost alias and resolves to an address list of which any member
parses to an address that is loopback, private, link-local, multicast,
unspecified, reserved, in one of the five explicit IPv4 ranges, or IPv6
site-local, `is_safe_url` returns an unsafe verdict — one unsafe address
poisons the whole set. -/
theorem c2_any_unsafe_address_rejected (allowed : List String)
    (resolve : String → Option (List String)) (url h : String) (ips : List String)
    (hx : extractHostname url = Except.ok (some h))
    (hallow : ¬ (allowed ≠ [] ∧ h ∈ allowed))
    (hloc : lowerStr h ∉ localhost_names)
    (hres : resolve h = some ips)
    (hany : ∃ s ∈ ips, ∃ ip, ip_address s = some ip ∧ unsafe_ip ip = true) :
    (is_safe_url allowed resolve url).1 = false := by
  obtain ⟨s, hs, ip, hp, hu⟩ := hany
  rw [is_safe_url_eq_core allowed resolve hx]
  unfold is_safe_url_core
  rw [if_neg hallow, if_neg hloc, hres]
  exact checkIPs_false_of_mem hs (check_ip_ne_none hp hu)

/-- Witness for C2: a hostname resolving to one public and one RFC 1918
address is rejected. -/
theorem c2_witness :
    (is_safe_url [] (fun _ => some ["8.8.8.8", "10.0.0.1"]) "http://mixed.test/").1 = false :=
  c2_any_unsafe_address_rejected [] _ "http://mixed.test/" "mixed.test"
    ["8.8.8.8", "10.0.0.1"] rfl (by decide) (by decide) rfl
    ⟨"10.0.0.1", by decide, IPAddr.v4 0x0A000001, rfl, by decide⟩

/-- Claim C3: with a non-empty allowlist containing the extracted hostname,
`is_safe_url` returns the safe verdict for every resolver behaviour — no
resolution or address inspection can influence the result. -/
theorem c3_allowlist_bypass (allowed : List String)
    (resolve : String → Option (List String)) (url h : String)
    (hx : extractHostname url = Except.ok (some h))
    (hne : allowed ≠ []) (hmem : h ∈ allowed) :
    is_safe_url allowed resolve url = (true, "") := by
  rw [is_safe_url_eq_core allowed resolve hx]
  exact core_allowed resolve hne hmem

/-- Witness for C3: even the localhost alias is let through when it is
allow-listed, with a resolver that answers 127.0.0.1. -/
theorem c3_witness :
    is_safe_url ["localhost"] (fun _ => some ["127.0.0.1"]) "http://localhost/" = (true, "") :=
  c3_allowlist_bypass ["localhost"] _ "http://localhost/" "localhost" rfl (by decide) (by decide)

/-- Claim C4: a non-allow-listed hostname that lower-cases to a localhost
alias is rejected with the localhost reason, for every resolver behaviour
(nothing is resolved). -/
theorem c4_localhost_rejected (allowed : List String)
    (resolve : String → Option (List String)) (url h : String)
    (hx : extractHostname url = Except.ok (some h))
    (hallow : ¬ (allowed ≠ [] ∧ h ∈ allowed))
    (hloc : lowerStr h ∈ localhost_names) :
    is_safe_url allowed resolve url = (false, "Error: Access to localhost is not permitted") := by
  rw [is_safe_url_eq_core allowed resolve hx]
  unfold is_safe_url_core
  rw [if_neg hallow, if_pos hloc]

/-- Witness for C4: mixed-case `LocalHost.LocalDomain` is caught even with
a resolver that would answer a public address. -/
theorem c4_witness :
    is_safe_url [] (fun _ => some ["8.8.8.8"]) "http://LocalHost.LocalDomain/"
      = (false, "Error: Access to localhost is not permitted") :=
  c4_localhost_rejected [] _ "http://LocalHost.LocalDomain/" "localhost.localdomain"
    rfl (by decide) (by decide)

/-- Claim C5: when the hostname is not allow-listed, not a localhost alias
and resolution fails (`socket.gaierror`), the verdict is unsafe with the
resolution-failure reason — fail-closed. -/
theorem c5_resolution_fail_closed (allowed : List String)
    (resolve : String → Option (List String)) (url h : String)
    (hx : extractHostname url = Except.ok (some h))
    (hallow : ¬ (allowed ≠ [] ∧ h ∈ allowed))
    (hloc : lowerStr h ∉ localhost_names)
    (hres : resolve h = none) :
    is_safe_url allowed resolve url
      = (false, "Error: Unable to resolve hostname '" ++ h ++ "'") := by
  rw [is_safe_url_eq_core allowed resolve hx]
  unfold is_safe_url_core
  rw [if_neg hallow, if_neg hloc, hres]

/-- Witness for C5. -/
theorem c5_witness :
    is_safe_url [] (fun _ => none) "http://nxdomain.test/"
      = (false, "Error: Unable to resolve hostname 'nxdomain.test'") :=
  c5_resolution_fail_closed [] _ "http://nxdomain.test/" "nxdomain.test"
    rfl (by decide) (by decide) rfl

/-- Claim C6: any exception escaping the validation body (here: the URL
parser's `ValueError`) is caught by the outer handler and converted into an
unsafe verdict whose reason wraps the exception detail — the validator
always returns a verdict instead of raising. -/
theorem c6_exception_wrapped (allowed : List String)
    (resolve : String → Option (List String)) (url e : String)
    (hb : is_safe_url_body allowed resolve url = Except.error e) :
    is_safe_url allowed resolve url = (false, "Error: URL validation failed: " ++ e) := by
  unfold is_safe_url
  rw [hb]

/-- Witness for C6: an unbalanced IPv6 bracket makes the parser raise, and
the validator converts it to the wrapped unsafe verdict. -/
theorem c6_witness :
    is_safe_url [] (fun _ => none) "http://[::1/x"
      = (false, "Error: URL validation failed: Invalid IPv6 URL") :=
  c6_exception_wrapped [] _ "http://[::1/x" "Invalid IPv6 URL" rfl

/-- Claim C7: when no hostname can be extracted the validator returns the
extraction-failure verdict (for every allowlist and resolver — the later
stages never run). -/
theorem c7_no_hostname (allowed : List String)
    (resolve : String → Option (List String)) (url : String)
    (hx : extractHostname url = Except.ok none) :
    is_safe_url allowed resolve url
      = (false, "Error: Unable to extract hostname from URL") := by
  unfold is_safe_url is_safe_url_body
  rw [hx]

/-- Witness for C7: the spec's own example `"not a url"`. -/
theorem c7_witness :
    is_safe_url [] (fun _ => none) "not a url"
      = (false, "Error: Unable to extract hostname from URL") :=
  c7_no_hostname [] _ "not a url" rfl

/-- Claim C8: the fetch gate. (i) A URL without an `http://`/`https://`
prefix is answered with the format error whatever the allowlist, resolver
and transport — neither validator nor network can influence the result;
(ii) on an unsafe verdict the validator's reason is returned verbatim, for
every transport behaviour — no request is made; (iii) on a safe verdict the
result is exactly the transport's outcome for the Jina Reader URL at the
caller's timeout, with the timeout and request-error outcomes mapped to
their distinct strings. -/
theorem c8_fetch_gate (allowed : List String)
    (resolve : String → Option (List String))
    (fetch : String → Nat → FetchOutcome) (url : String) (timeout : Nat) :
    (schemeOk url = false →
      ∀ (allowed2 : List String) (resolve2 : String → Option (List String))
        (fetch2 : String → Nat → FetchOutcome),
        get_page_content allowed2 resolve2 fetch2 url timeout
          = "Error: Invalid URL format. Must start with http:// or https://")
    ∧ (∀ msg, schemeOk url = true →
        is_safe_url allowed resolve url = (false, msg) →
        ∀ (fetch2 : String → Nat → FetchOutcome),
          get_page_content allowed resolve fetch2 url timeout = msg)
    ∧ (schemeOk url = true →
        (is_safe_url allowed resolve url).1 = true →
        get_page_content allowed resolve fetch url timeout
          = match fetch ("https://r.jina.ai/" ++ url) timeout with
            | FetchOutcome.success body => body
            | FetchOutcome.timedOut =>
              "Error: Request timed out after " ++ toString timeout ++ " seconds"
            | FetchOutcome.failure e => "Error fetching content: " ++ e) := by
  refine ⟨?_, ?_, ?_⟩
  · intro hbad allowed2 resolve2 fetch2
    simp [get_page_content, hbad]
  · intro msg hok hver fetch2
    simp [get_page_content, hok, hver]
  · intro hok hsafe
    simp [get_page_content, hok, hsafe]

/-- Witness for C8: one concrete instance of each of the three parts. -/
theorem c8_witness :
    get_page_content [] (fun _ => none) (fun _ _ => FetchOutcome.timedOut) "ftp://x" 30
      = "Error: Invalid URL format. Must start with http:// or https://"
    ∧ get_page_content [] (fun _ => some ["10.0.0.1"]) (fun _ _ => FetchOutcome.success "hi")
        "http://bad.test/" 30
      = "Error: Private address (10.0.0.1) is not permitted"
    ∧ get_page_content [] (fun _ => some ["8.8.8.8"]) (fun _ _ => FetchOutcome.timedOut)
        "http://ok.test/" 7
      = "Error: Request timed out after 7 seconds" :=
  ⟨(c8_fetch_gate [] (fun _ => none) (fun _ _ => FetchOutcome.timedOut) "ftp://x" 30).1
      (by decide) [] (fun _ => none) (fun _ _ => FetchOutcome.timedOut),
   (c8_fetch_gate [] (fun _ => some ["10.0.0.1"]) (fun _ _ => FetchOutcome.success "hi")
      "http://bad.test/" 30).2.1 "Error: Private address (10.0.0.1) is not permitted"
      (by decide) (by decide) (fun _ _ => FetchOutcome.success "hi"),
   (c8_fetch_gate [] (fun _ => some ["8.8.8.8"]) (fun _ _ => FetchOutcome.timedOut)
      "http://ok.test/" 7).2.2 (by decide) (by decide)⟩

/-- Claim C9: the hostname `urlparse` extracts is already lower-cased, so
(i) every extracted hostname is a fixed point of lower-casing, (ii) an
allowlist entry containing an ASCII upper-case letter can never equal an
extracted hostname (the bypass can never fire on it), and (iii) a URL whose
raw host lower-cases into the allowlist does trigger the bypass. -/
theorem c9_hostname_lowercased (entry url : String) :
    (∀ h, extractHostname url = Except.ok (some h) → lowerStr h = h)
    ∧ (entry.toList.any isAsciiUpper = true →
        ∀ h, extractHostname url = Except.ok (some h) → h ≠ entry)
    ∧ (∀ (allowed : List String) (resolve : String → Option (List String)) (raw : String),
        extractRawHost url = Except.ok (some raw) → allowed ≠ [] →
        lowerStr raw ∈ allowed → is_safe_url allowed resolve url = (true, "")) := by
  have hlow : ∀ h, extractHostname url = Except.ok (some h) → lowerStr h = h := by
    intro h hx
    unfold extractHostname at hx
    cases hr : extractRawHost url with
    | error e =>
      rw [hr] at hx
      dsimp only at hx
      exact Except.noConfusion hx
    | ok o =>
      cases o with
      | none =>
        rw [hr] at hx
        dsimp only at hx
        injection hx with hx1
        exact Option.noConfusion hx1
      | some raw =>
        rw [hr] at hx
        dsimp only at hx
        injection hx with hx1
        injection hx1 with hx2
        rw [← hx2]
        exact lowerStr_idem raw
  refine ⟨hlow, ?_, ?_⟩
  · intro hup h hx heq
    have hfix := hlow h hx
    rw [heq] at hfix
    have hnoup := no_upper_of_lowerStr_fix hfix
    rw [hnoup] at hup
    exact Bool.noConfusion hup
  · intro allowed resolve raw hr hne hmem
    have hx : extractHostname url = Except.ok (some (lowerStr raw)) := by
      unfold extractHostname
      rw [hr]
    rw [is_safe_url_eq_core allowed resolve hx]
    exact core_allowed resolve hne hmem

/-- Witness for C9: `example.com` is its own lower-casing and cannot match
the upper-cased entry `Example.com`; the URL `http://EXAMPLE.com/a` with
raw host `EXAMPLE.com` triggers the bypass for the entry `example.com`. -/
theorem c9_witness :
    lowerStr "example.com" = "example.com"
    ∧ "example.com" ≠ "Example.com"
    ∧ is_safe_url ["example.com"] (fun _ => some ["10.0.0.1"]) "http://EXAMPLE.com/a" = (true, "") :=
  ⟨(c9_hostname_lowercased "Example.com" "http://example.com/").1 "example.com" rfl,
   (c9_hostname_lowercased "Example.com" "http://example.com/").2.1 (by decide) "example.com" rfl,
   (c9_hostname_lowercased "example.com" "http://EXAMPLE.com/a").2.2
     ["example.com"] _ "EXAMPLE.com" rfl (by decide) (by decide)⟩

/-- Claim C10: the validator is deterministic in its inputs — two resolvers
that answer every hostname identically give identical verdicts and reason
strings on every URL and allowlist (no other state enters the result). -/
theorem c10_deterministic (allowed : List String)
    (r1 r2 : String → Option (List String)) (url : String)
    (hr : ∀ h, r1 h = r2 h) :
    is_safe_url allowed r1 url = is_safe_url allowed r2 url := by
  unfold is_safe_url is_safe_url_body
  cases hx : extractHostname url with
  | error e => rfl
  | ok o =>
    cases o with
    | none => rfl
    | some h => simp only [is_safe_url_core, hr]

/-- Witness for C10: two syntactically different but pointwise-equal
resolvers. -/
theorem c10_witness :
    is_safe_url [] (fun _ => some ["8.8.8.8"]) "http://w10.test/"
      = is_safe_url [] (fun h => if h = "" then some ["8.8.8.8"] else some ["8.8.8.8"])
          "http://w10.test/" :=
  c10_deterministic [] _ _ "http://w10.test/" (fun _ => (ite_self _).symm)

end SSRF
